import Mathlib

/-!
Verification of the investment calculator in `principalcalc.py`.

The embedding models:
  - calendar dates and the date arithmetic performed by `calculate_investment`
    (Python `date.replace` and `date + timedelta`), lines 128-138;
  - the tenor-to-years conversion, lines 141-147;
  - the interest figures, lines 149-157;
  - the rollover state hand-off in `handle_rollovers`, lines 303-331;
  - the re-prompting input loops of `handle_rollovers`, lines 242-258 and
    287-300, as functions over a pre-tokenised input stream.

Python floats are modelled as rationals; Python `int()` truncation as
`pyInt` and `timedelta` day normalisation as `pyFloor`.
-/

namespace PrincipalCalc

/-- A calendar date as Python's `datetime.date`: year, month, day fields. -/
structure Date where
  year : ℤ
  month : ℤ
  day : ℤ
deriving DecidableEq, Repr

/-- Proleptic Gregorian leap-year rule, as Python's `calendar.isleap`
(divisible by 4, and not by 100 unless also by 400). -/
def is_leap (y : ℤ) : Bool :=
  decide (Int.emod y 4 = 0 ∧ (Int.emod y 100 ≠ 0 ∨ Int.emod y 400 = 0))

/-- Days in a month of a given year, as `datetime`'s internal table. -/
def days_in_month (y m : ℤ) : ℤ :=
  if m = 2 then (if is_leap y then 29 else 28)
  else if m = 4 ∨ m = 6 ∨ m = 9 ∨ m = 11 then 30
  else 31

/-- Validity of a date, as checked by the `datetime.date` constructor and
by `date.replace`: month in 1..12 and day in 1..days_in_month. -/
def date_valid (d : Date) : Prop :=
  1 ≤ d.month ∧ d.month ≤ 12 ∧ 1 ≤ d.day ∧ d.day ≤ days_in_month d.year d.month

instance (d : Date) : Decidable (date_valid d) := by
  unfold date_valid; infer_instance

/-- Construction of a date with validation, as Python's `date.replace`:
returns `none` where `replace` raises `ValueError`. -/
def mk_valid_date (y m dy : ℤ) : Option Date :=
  if 1 ≤ m ∧ m ≤ 12 ∧ 1 ≤ dy ∧ dy ≤ days_in_month y m then
    some ⟨y, m, dy⟩
  else none

/-- Python `int()` applied to a float: truncation toward zero.
On a rational q this is the truncated quotient of numerator by denominator. -/
def pyInt (q : ℚ) : ℤ := Int.tdiv q.num (q.den : ℤ)

/-- The `days` field of Python `timedelta(days=q)`: `timedelta` normalises
toward negative infinity, so this is the floor of q. -/
def pyFloor (q : ℚ) : ℤ := Int.fdiv q.num (q.den : ℤ)

/-- Successor date: the next calendar day. -/
def next_day (d : Date) : Date :=
  if d.day < days_in_month d.year d.month then ⟨d.year, d.month, d.day + 1⟩
  else if d.month < 12 then ⟨d.year, d.month + 1, 1⟩
  else ⟨d.year + 1, 1, 1⟩

/-- Predecessor date: the previous calendar day. -/
def prev_day (d : Date) : Date :=
  if 1 < d.day then ⟨d.year, d.month, d.day - 1⟩
  else if 1 < d.month then ⟨d.year, d.month - 1, days_in_month d.year (d.month - 1)⟩
  else ⟨d.year - 1, 12, 31⟩

/-- Shifting a date by a signed number of days, as Python
`date + timedelta(days=k)` (which adds `k` to the date's ordinal). -/
def add_days (d : Date) (k : ℤ) : Date :=
  if 0 ≤ k then next_day^[k.toNat] d else prev_day^[(-k).toNat] d

/-- Python's `<=` on dates: lexicographic on (year, month, day). -/
def dateLe (a b : Date) : Prop :=
  a.year < b.year ∨
    (a.year = b.year ∧
      (a.month < b.month ∨ (a.month = b.month ∧ a.day ≤ b.day)))

instance (a b : Date) : Decidable (dateLe a b) := by
  unfold dateLe; infer_instance

/-- Maturity-date computation of `calculate_investment`, lines 129-138:
years via `replace(year=year+int(t))`; months via
`total_months = month + int(t)`, `replace(year=year + total_months // 12,
month=total_months % 12)`; days via `date + timedelta(days=t)`; any other
unit leaves the effective date unchanged. `none` models a raised
`ValueError`. -/
def maturity_date (effective_date : Date) (tenor_value : ℚ) (tenor_unit : String) :
    Option Date :=
  if tenor_unit = "years" then
    mk_valid_date (effective_date.year + pyInt tenor_value)
      effective_date.month effective_date.day
  else if tenor_unit = "months" then
    mk_valid_date
      (effective_date.year + Int.ediv (effective_date.month + pyInt tenor_value) 12)
      (Int.emod (effective_date.month + pyInt tenor_value) 12)
      effective_date.day
  else if tenor_unit = "days" then
    some (add_days effective_date (pyFloor tenor_value))
  else
    some effective_date

/-- Tenor-to-years conversion of `calculate_investment`, lines 141-147:
years pass through, months divide by 12, days divide by a flat 365;
any other unit yields 0. -/
def tenor_in_years (tenor_value : ℚ) (tenor_unit : String) : ℚ :=
  if tenor_unit = "years" then tenor_value
  else if tenor_unit = "months" then tenor_value / 12
  else if tenor_unit = "days" then tenor_value / 365
  else 0

/-- Maturity value, line 150: `principal * (1 + effective_rate * tenor_in_years)`. -/
def maturity_value (principal effective_rate tenor_value : ℚ) (tenor_unit : String) : ℚ :=
  principal * (1 + effective_rate * tenor_in_years tenor_value tenor_unit)

/-- Interest generated, line 153: `maturity_value - principal`. -/
def interest_generated (principal effective_rate tenor_value : ℚ) (tenor_unit : String) : ℚ :=
  maturity_value principal effective_rate tenor_value tenor_unit - principal

/-- Withholding tax, line 154: `interest_generated * 0.10`. -/
def withholding_tax (principal effective_rate tenor_value : ℚ) (tenor_unit : String) : ℚ :=
  interest_generated principal effective_rate tenor_value tenor_unit * (1 / 10)

/-- Amount due, line 157: `maturity_value - withholding_tax`. -/
def amount_due (principal effective_rate tenor_value : ℚ) (tenor_unit : String) : ℚ :=
  maturity_value principal effective_rate tenor_value tenor_unit -
    withholding_tax principal effective_rate tenor_value tenor_unit

/-- The interest portion actually paid out: the amount due over and above
the principal (the spec's "net interest"). -/
def net_interest (principal effective_rate tenor_value : ℚ) (tenor_unit : String) : ℚ :=
  amount_due principal effective_rate tenor_value tenor_unit - principal

/-- The full `calculate_investment` (lines 114-159): returns
(maturity_value, withholding_tax, amount_due, maturity_date), or `none`
where the date computation raises. -/
def calculate_investment (principal tenor_value : ℚ) (tenor_unit : String)
    (effective_rate : ℚ) (effective_date : Date) : Option (ℚ × ℚ × ℚ × Date) :=
  (maturity_date effective_date tenor_value tenor_unit).map fun m =>
    (maturity_value principal effective_rate tenor_value tenor_unit,
     withholding_tax principal effective_rate tenor_value tenor_unit,
     amount_due principal effective_rate tenor_value tenor_unit,
     m)

/-- One rollover step of `handle_rollovers`, lines 303-331: the new
period's effective date is the previous maturity date (line 303), the
investment is computed (line 305-311), and the state carried into the next
iteration is `(amount_due, new_maturity)` (lines 330-331). `none` models a
raised `ValueError` in the date computation. -/
def rollover_step (principal : ℚ) (current_maturity : Date) (tenor_value : ℚ)
    (tenor_unit : String) (effective_rate : ℚ) : Option (ℚ × Date) :=
  (calculate_investment principal tenor_value tenor_unit effective_rate
      current_maturity).map fun r => (r.2.2.1, r.2.2.2)

/-- One console entry as seen by the numeric prompt loops: `some v` for an
entry that parses as the float v, `none` for an empty or non-numeric entry. -/
abbrev InputStream := List (Option ℚ)

/-- The tenor-value prompt loop of `handle_rollovers`, lines 242-258: an
empty or non-numeric entry prints a message and re-prompts (consuming the
next entry), an entry ≤ 0 re-prompts, a positive numeric entry is accepted.
Returns the accepted value and the unconsumed stream; `none` when the
stream is exhausted without an accepted value. -/
def prompt_positive_number : InputStream → Option (ℚ × InputStream)
  | [] => none
  | none :: rest => prompt_positive_number rest
  | some v :: rest =>
      if 0 < v then some (v, rest) else prompt_positive_number rest

/-- The effective-rate prompt loop of `handle_rollovers`, lines 287-300: an
empty or non-numeric entry prints a message and re-prompts (consuming the
next entry); any numeric entry is accepted. -/
def prompt_rate : InputStream → Option (ℚ × InputStream)
  | [] => none
  | none :: rest => prompt_rate rest
  | some v :: rest => some (v, rest)

/-- Days in a calendar year: 366 if leap, else 365 (spec section 4.2). -/
def days_in_year (y : ℤ) : ℤ := if is_leap y then 366 else 365

/-- Ordinal day of a date within its year (Jan 1 is day 1). -/
def day_of_year (d : Date) : ℤ :=
  ((List.range (d.month - 1).toNat).map fun i : ℕ =>
      days_in_month d.year ((i : ℤ) + 1)).sum + d.day

/-- Inclusive overlapping day count of the interval [s, e] with the
calendar year y, following the spec's actual/actual description. -/
def year_overlap_days (s e : Date) (y : ℤ) : ℤ :=
  (if y = e.year then day_of_year e else days_in_year y) -
    (if y = s.year then day_of_year s else 1) + 1

/-- The spec's actual/actual year fraction (spec section 4.2), stated from
the spec's words for comparison with the code's `tenor_in_years`: partition
[s, e] at calendar-year boundaries, weight each year's inclusive overlap by
that year's length, and sum; 0 when s > e. -/
def specYearFraction (s e : Date) : ℚ :=
  if dateLe s e then
    ((List.range ((e.year - s.year).toNat + 1)).map fun i : ℕ =>
        ((year_overlap_days s e (s.year + (i : ℤ)) : ℤ) : ℚ) /
          ((days_in_year (s.year + (i : ℤ)) : ℤ) : ℚ)).sum
  else 0

/-- The spec's inclusive day length of [s, e] (spec section 4.2):
(e − s) in days + 1, computed as the sum of the per-year overlaps. -/
def spec_inclusive_day_length (s e : Date) : ℤ :=
  ((List.range ((e.year - s.year).toNat + 1)).map fun i : ℕ =>
      year_overlap_days s e (s.year + (i : ℤ))).sum

lemma pyInt_nonneg {q : ℚ} (h : 0 ≤ q) : 0 ≤ pyInt q :=
  Int.tdiv_nonneg (Rat.num_nonneg.mpr h) (Int.ofNat_nonneg q.den)

lemma pyFloor_nonneg {q : ℚ} (h : 0 ≤ q) : 0 ≤ pyFloor q :=
  Int.fdiv_nonneg (Rat.num_nonneg.mpr h) (Int.ofNat_nonneg q.den)

lemma pyFloor_eq_pyInt {q : ℚ} (h : 0 ≤ q) : pyFloor q = pyInt q := by
  unfold pyFloor pyInt
  rw [Int.fdiv_eq_ediv _ (Int.ofNat_nonneg q.den),
    Int.tdiv_eq_ediv (Rat.num_nonneg.mpr h) (Int.ofNat_nonneg q.den)]

lemma pyInt_intCast (k : ℤ) : pyInt ((k : ℤ) : ℚ) = k := by
  unfold pyInt
  rw [Rat.num_intCast, Rat.den_intCast]
  exact Int.tdiv_one k

lemma pyFloor_intCast (k : ℤ) : pyFloor ((k : ℤ) : ℚ) = k := by
  unfold pyFloor
  rw [Rat.num_intCast, Rat.den_intCast]
  exact Int.fdiv_one k

lemma dateLe_mk {y1 m1 d1 y2 m2 d2 : ℤ} :
    dateLe ⟨y1, m1, d1⟩ ⟨y2, m2, d2⟩ ↔
      (y1 < y2 ∨ (y1 = y2 ∧ (m1 < m2 ∨ (m1 = m2 ∧ d1 ≤ d2)))) :=
  Iff.rfl

lemma dateLe_refl (d : Date) : dateLe d d := by
  unfold dateLe; omega

lemma dateLe_trans {a b c : Date} (h1 : dateLe a b) (h2 : dateLe b c) :
    dateLe a c := by
  unfold dateLe at h1 h2 ⊢; omega

lemma le_next_day (d : Date) : dateLe d (next_day d) := by
  obtain ⟨y, mo, dy⟩ := d
  unfold next_day
  dsimp only
  split_ifs <;> rw [dateLe_mk] <;> omega

lemma le_iterate_next_day (n : ℕ) (d : Date) : dateLe d (next_day^[n] d) := by
  induction n with
  | zero => exact dateLe_refl d
  | succ m ih =>
      rw [Function.iterate_succ_apply']
      exact dateLe_trans ih (le_next_day (next_day^[m] d))

lemma le_add_days {d : Date} {k : ℤ} (hk : 0 ≤ k) : dateLe d (add_days d k) := by
  unfold add_days
  rw [if_pos hk]
  exact le_iterate_next_day k.toNat d

/-- The maturity date never precedes the effective date: whenever
`calculate_investment`'s date shift succeeds on a valid date with a
positive tenor, the result is at or after the effective date. -/
lemma maturity_date_le {d : Date} {t : ℚ} {u : String} {m : Date}
    (hv : date_valid d) (ht : 0 < t) (hm : maturity_date d t u = some m) :
    dateLe d m := by
  have hk : 0 ≤ pyInt t := pyInt_nonneg ht.le
  unfold maturity_date at hm
  by_cases h1 : u = "years"
  · rw [if_pos h1] at hm
    unfold mk_valid_date at hm
    split_ifs at hm with hg
    · obtain ⟨y, mo, dy⟩ := d
      injection hm with hm
      subst hm
      dsimp only at hg ⊢
      rw [dateLe_mk]
      omega
  · rw [if_neg h1] at hm
    by_cases h2 : u = "months"
    · rw [if_pos h2] at hm
      unfold mk_valid_date at hm
      split_ifs at hm with hg
      · obtain ⟨y, mo, dy⟩ := d
        injection hm with hm
        subst hm
        unfold date_valid at hv
        dsimp only at hg hv ⊢
        rw [dateLe_mk]
        have hde : 12 * Int.ediv (mo + pyInt t) 12 + Int.emod (mo + pyInt t) 12
            = mo + pyInt t := Int.ediv_add_emod (mo + pyInt t) 12
        have hnn : 0 ≤ Int.emod (mo + pyInt t) 12 :=
          Int.emod_nonneg (mo + pyInt t) (by norm_num)
        have hlt : Int.emod (mo + pyInt t) 12 < 12 :=
          Int.emod_lt_of_pos (mo + pyInt t) (by norm_num)
        omega
    · rw [if_neg h2] at hm
      by_cases h3 : u = "days"
      · rw [if_pos h3] at hm
        injection hm with hm
        subst hm
        exact le_add_days (pyFloor_nonneg ht.le)
      · rw [if_neg h3] at hm
        injection hm with hm
        subst hm
        exact dateLe_refl d

lemma tenor_in_years_years (t : ℚ) : tenor_in_years t "years" = t := rfl

lemma tenor_in_years_months (t : ℚ) : tenor_in_years t "months" = t / 12 := rfl

lemma tenor_in_years_days (t : ℚ) : tenor_in_years t "days" = t / 365 := rfl

lemma rollover_step_eq (p t r : ℚ) (u : String) (cm m : Date)
    (h : maturity_date cm t u = some m) :
    rollover_step p cm t u r = some (amount_due p r t u, m) := by
  unfold rollover_step calculate_investment
  rw [h, Option.map_some', Option.map_some']

lemma rollover_step_some {p t r p2 : ℚ} {u : String} {cm m2 : Date}
    (h : rollover_step p cm t u r = some (p2, m2)) :
    p2 = amount_due p r t u ∧ maturity_date cm t u = some m2 := by
  unfold rollover_step calculate_investment at h
  cases hmd : maturity_date cm t u with
  | none => rw [hmd] at h; simp at h
  | some m =>
      rw [hmd, Option.map_some', Option.map_some'] at h
      simp only [Option.some.injEq, Prod.mk.injEq] at h
      obtain ⟨h1, h2⟩ := h
      subst h2
      exact ⟨h1.symm, rfl⟩

/-- For a span that stays inside a single non-leap calendar year, the
spec's actual/actual fraction reduces to the inclusive day count over 365. -/
lemma specYearFraction_same_year {s e : Date} (hy : e.year = s.year)
    (hle : dateLe s e) (hnl : is_leap s.year = false) :
    specYearFraction s e =
      ((day_of_year e - day_of_year s + 1 : ℤ) : ℚ) / 365 := by
  unfold specYearFraction
  rw [if_pos hle, hy, sub_self, Int.toNat_zero, zero_add]
  rw [show List.range 1 = [0] from rfl, List.map_cons, List.map_nil,
    List.sum_cons, List.sum_nil, add_zero]
  rw [show ((0 : ℕ) : ℤ) = 0 from rfl, add_zero]
  unfold year_overlap_days
  rw [if_pos hy.symm, if_pos rfl]
  unfold days_in_year
  rw [hnl]
  norm_num

/-- C1 counterexample: for the effective date 2023-01-01 with a 10-day
tenor the program reaches maturity 2023-01-11, a span inside the non-leap
year 2023 with inclusive day length 11; the actual/actual fraction of that
span is 11/365, but the program's year fraction is 10/365 — so the year
fraction is not the actual/actual partition value, and in particular is
not the inclusive day length divided by 365. -/
theorem claim_C1_counterexample :
    maturity_date ⟨2023, 1, 1⟩ 10 "days" = some ⟨2023, 1, 11⟩ ∧
    is_leap 2023 = false ∧
    spec_inclusive_day_length ⟨2023, 1, 1⟩ ⟨2023, 1, 11⟩ = 11 ∧
    specYearFraction ⟨2023, 1, 1⟩ ⟨2023, 1, 11⟩ = 11 / 365 ∧
    tenor_in_years 10 "days" = 10 / 365 ∧
    (10 / 365 : ℚ) ≠ 11 / 365 := by
  refine ⟨by decide, by decide, by decide, ?_, tenor_in_years_days 10, by norm_num⟩
  rw [specYearFraction_same_year (by decide) (by decide) (by decide)]
  rw [show day_of_year ⟨2023, 1, 11⟩ - day_of_year ⟨2023, 1, 1⟩ + 1 = 11 from by decide]
  norm_num

/-- C1 (amended): the year fraction is not derived from the dates at all;
it is tenor/365 for days, tenor/12 for months and tenor for years, while
the actual/actual fraction of a span inside one non-leap calendar year is
its inclusive day count over 365 — one more day than the days-tenor the
program divides by 365. -/
theorem claim_C1_amended (t : ℚ) (s e : Date) (hy : e.year = s.year)
    (hle : dateLe s e) (hnl : is_leap s.year = false) :
    tenor_in_years t "days" = t / 365 ∧
    tenor_in_years t "months" = t / 12 ∧
    tenor_in_years t "years" = t ∧
    specYearFraction s e = ((day_of_year e - day_of_year s + 1 : ℤ) : ℚ) / 365 :=
  ⟨rfl, rfl, rfl, specYearFraction_same_year hy hle hnl⟩

/-- C1 witness: the amended statement at tenor 10 over the span
2023-03-01 to 2023-03-10. -/
theorem claim_C1_amended_witness :
    tenor_in_years 10 "days" = 10 / 365 ∧
    tenor_in_years 10 "months" = 10 / 12 ∧
    tenor_in_years 10 "years" = 10 ∧
    specYearFraction ⟨2023, 3, 1⟩ ⟨2023, 3, 10⟩ =
      ((day_of_year ⟨2023, 3, 10⟩ - day_of_year ⟨2023, 3, 1⟩ + 1 : ℤ) : ℚ) / 365 :=
  claim_C1_amended 10 ⟨2023, 3, 1⟩ ⟨2023, 3, 10⟩ rfl (by decide) (by decide)

/-- C2: the maturity-date computation is not total. Shifting 2024-06-15 by
6 months makes `total_months = 12`, so `month_change = 0` and
`replace(month=0)` raises; shifting 2023-01-31 by 1 month asks for
Feb 31 and raises; shifting 2024-02-29 by 1 year asks for Feb 29 of a
non-leap year and raises. The model returns `none` at exactly these
raising inputs. -/
theorem claim_C2_not_total :
    maturity_date ⟨2024, 6, 15⟩ 6 "months" = none ∧
    maturity_date ⟨2023, 1, 31⟩ 1 "months" = none ∧
    maturity_date ⟨2024, 2, 29⟩ 1 "years" = none := by
  exact ⟨by decide, by decide, by decide⟩

/-- C3 counterexample: adding 1 month to 2024-01-31 does not produce the
clamped date 2024-02-29, and adding 1 year to 2024-02-29 does not produce
the clamped date 2025-02-28 — both computations fail instead of clamping. -/
theorem claim_C3_counterexample :
    maturity_date ⟨2024, 1, 31⟩ 1 "months" ≠ some ⟨2024, 2, 29⟩ ∧
    maturity_date ⟨2024, 2, 29⟩ 1 "years" ≠ some ⟨2025, 2, 28⟩ := by
  exact ⟨by decide, by decide⟩

/-- C3 (amended): date shifting performs no day-of-month clamping: adding
1 year to Feb 29 landing in a non-leap year fails (no date is produced),
and adding 1 month to 2024-01-31 fails, rather than yielding the last
valid day of the target month. -/
theorem claim_C3_amended :
    maturity_date ⟨2024, 2, 29⟩ 1 "years" = none ∧
    maturity_date ⟨2024, 1, 31⟩ 1 "months" = none := by
  exact ⟨by decide, by decide⟩

/-- C4 counterexample: with principal 100 and rate input 2 (> 1), the
yearly interest the program computes is 200, not 100 × 2 / 100 = 2 as the
claimed percent interpretation requires. -/
theorem claim_C4_counterexample :
    interest_generated 100 2 1 "years" = 200 ∧ (200 : ℚ) ≠ 100 * 2 / 100 := by
  constructor
  · simp only [interest_generated, maturity_value, tenor_in_years_years]
    norm_num
  · norm_num

/-- C4 (amended): no rate normalization is performed anywhere: for every
principal p and every rate input r, the interest for one year equals
p × r (the rate is used directly as a per-year fraction), so a rate ≤ 1
behaves as claimed but a rate > 1 yields p × r, not p × r / 100. -/
theorem claim_C4_amended (p r : ℚ) : interest_generated p r 1 "years" = p * r := by
  simp only [interest_generated, maturity_value, tenor_in_years_years]
  ring

/-- C5 counterexample: with principal 1000, rate 0.1 and a 1-year tenor
from 2023-01-05, the maturity value is 1100 = principal + interest 100,
but the amount carried forward into the next rollover is 1090 ≠ 1100:
withholding tax is deducted from the carried amount. -/
theorem claim_C5_counterexample :
    rollover_step 1000 ⟨2023, 1, 5⟩ 1 "years" (1 / 10) = some (1090, ⟨2024, 1, 5⟩) ∧
    maturity_value 1000 (1 / 10) 1 "years" = 1100 ∧
    interest_generated 1000 (1 / 10) 1 "years" = 100 ∧
    (1090 : ℚ) ≠ 1000 + 100 := by
  refine ⟨?_, ?_, ?_, by norm_num⟩
  · rw [rollover_step_eq 1000 1 (1 / 10) "years" ⟨2023, 1, 5⟩ ⟨2024, 1, 5⟩ (by decide)]
    simp only [Option.some.injEq, Prod.mk.injEq]
    refine ⟨?_, trivial⟩
    simp only [amount_due, withholding_tax, interest_generated, maturity_value,
      tenor_in_years_years]
    norm_num
  · simp only [maturity_value, tenor_in_years_years]
    norm_num
  · simp only [interest_generated, maturity_value, tenor_in_years_years]
    norm_num

/-- C5 (amended): the maturity value equals principal + total interest
exactly, but the amount carried forward as the payout and as the next
rollover's principal is the amount due = maturity value − withholding tax
= principal + 0.9 × total interest: tax is deducted from it. -/
theorem claim_C5_amended (p r t : ℚ) (u : String) (cm : Date) (p2 : ℚ) (m2 : Date)
    (h : rollover_step p cm t u r = some (p2, m2)) :
    maturity_value p r t u = p + interest_generated p r t u ∧
    p2 = maturity_value p r t u - withholding_tax p r t u ∧
    p2 = p + interest_generated p r t u * (9 / 10) := by
  obtain ⟨hp, -⟩ := rollover_step_some h
  refine ⟨by unfold interest_generated; ring, hp, ?_⟩
  rw [hp]
  unfold amount_due withholding_tax interest_generated
  ring

/-- C5 witness: the amended statement at principal 500, rate 0.2, 1-year
tenor from 2022-04-03, where the carried amount is 590. -/
theorem claim_C5_amended_witness :
    maturity_value 500 (1 / 5) 1 "years" = 500 + interest_generated 500 (1 / 5) 1 "years" ∧
    (590 : ℚ) = maturity_value 500 (1 / 5) 1 "years" - withholding_tax 500 (1 / 5) 1 "years" ∧
    (590 : ℚ) = 500 + interest_generated 500 (1 / 5) 1 "years" * (9 / 10) :=
  claim_C5_amended 500 (1 / 5) 1 "years" ⟨2022, 4, 3⟩ 590 ⟨2023, 4, 3⟩ (by
    rw [rollover_step_eq 500 1 (1 / 5) "years" ⟨2022, 4, 3⟩ ⟨2023, 4, 3⟩ (by decide)]
    simp only [Option.some.injEq, Prod.mk.injEq]
    refine ⟨?_, trivial⟩
    simp only [amount_due, withholding_tax, interest_generated, maturity_value,
      tenor_in_years_years]
    norm_num)

/-- C6: withholding tax is exactly one tenth of the total interest due,
and withholding tax plus the paid-out net interest recovers the total
interest due (exactly, in the rational model of float arithmetic). -/
theorem claim_C6_tax_identity (p r t : ℚ) (u : String) :
    withholding_tax p r t u = interest_generated p r t u * (1 / 10) ∧
    withholding_tax p r t u + net_interest p r t u = interest_generated p r t u := by
  constructor
  · rfl
  · unfold net_interest amount_due withholding_tax interest_generated
    ring

/-- C7 counterexample: with principal 2000, rate 0.1 and a 1-year tenor
rolled over from maturity 2023-03-10, the next period's principal is 2180,
which is not the prior period's net maturity value
2000 + interest = 2200. -/
theorem claim_C7_counterexample :
    rollover_step 2000 ⟨2023, 3, 10⟩ 1 "years" (1 / 10) = some (2180, ⟨2024, 3, 10⟩) ∧
    2000 + interest_generated 2000 (1 / 10) 1 "years" = 2200 ∧
    (2180 : ℚ) ≠ 2200 := by
  refine ⟨?_, ?_, by norm_num⟩
  · rw [rollover_step_eq 2000 1 (1 / 10) "years" ⟨2023, 3, 10⟩ ⟨2024, 3, 10⟩ (by decide)]
    simp only [Option.some.injEq, Prod.mk.injEq]
    refine ⟨?_, trivial⟩
    simp only [amount_due, withholding_tax, interest_generated, maturity_value,
      tenor_in_years_years]
    norm_num
  · simp only [interest_generated, maturity_value, tenor_in_years_years]
    norm_num

/-- C7 (amended): in every successful rollover step the new period is
computed with effective date equal to the prior maturity date, its
principal equals the prior period's amount due (maturity value minus
withholding tax, not the gross net-maturity value), and the new maturity
date is not before the prior one, so the chain of maturity dates is
non-decreasing. -/
theorem claim_C7_amended (p r t : ℚ) (u : String) (cm : Date) (p2 : ℚ) (m2 : Date)
    (hv : date_valid cm) (ht : 0 < t)
    (h : rollover_step p cm t u r = some (p2, m2)) :
    p2 = amount_due p r t u ∧ maturity_date cm t u = some m2 ∧ dateLe cm m2 := by
  obtain ⟨hp, hm⟩ := rollover_step_some h
  exact ⟨hp, hm, maturity_date_le hv ht hm⟩

/-- C7 witness: the amended statement at principal 2000, rate 0.1, 1-year
tenor from maturity 2023-03-10. -/
theorem claim_C7_amended_witness :
    (2180 : ℚ) = amount_due 2000 (1 / 10) 1 "years" ∧
    maturity_date ⟨2023, 3, 10⟩ 1 "years" = some ⟨2024, 3, 10⟩ ∧
    dateLe ⟨2023, 3, 10⟩ ⟨2024, 3, 10⟩ :=
  claim_C7_amended 2000 (1 / 10) 1 "years" ⟨2023, 3, 10⟩ 2180 ⟨2024, 3, 10⟩
    (by decide) (by norm_num) (by
      rw [rollover_step_eq 2000 1 (1 / 10) "years" ⟨2023, 3, 10⟩ ⟨2024, 3, 10⟩ (by decide)]
      simp only [Option.some.injEq, Prod.mk.injEq]
      refine ⟨?_, trivial⟩
      simp only [amount_due, withholding_tax, interest_generated, maturity_value,
        tenor_in_years_years]
      norm_num)

/-- C8 counterexample: a non-numeric tenor entry followed by the numeric
entry 5 yields the accepted value 5 (the loop consumed the next entry and
went on); likewise for the rate prompt — the invalid entry did not
terminate the loop. -/
theorem claim_C8_counterexample :
    prompt_positive_number [none, some 5] = some (5, []) ∧
    prompt_positive_number [none, some 5] ≠ none ∧
    prompt_rate [none, some 7] = some (7, []) ∧
    prompt_rate [none, some 7] ≠ none := by
  refine ⟨by decide, by decide, by decide, by decide⟩

/-- C8 (amended): an empty or non-numeric entry for the tenor value or the
effective rate makes the prompt loop re-prompt for that same field,
consuming the next entry — and a non-positive tenor entry re-prompts as
well; the rollover loop is not terminated by an invalid entry. -/
theorem claim_C8_amended (rest : InputStream) (v : ℚ) (hv : v ≤ 0) :
    prompt_positive_number (none :: rest) = prompt_positive_number rest ∧
    prompt_rate (none :: rest) = prompt_rate rest ∧
    prompt_positive_number (some v :: rest) = prompt_positive_number rest := by
  refine ⟨rfl, rfl, ?_⟩
  simp only [prompt_positive_number]
  rw [if_neg (not_lt.mpr hv)]

/-- C8 witness: the amended statement on the stream [-1, 2] for the tenor
prompt and [invalid, 2] for both prompts. -/
theorem claim_C8_amended_witness :
    prompt_positive_number [none, some 2] = prompt_positive_number [some 2] ∧
    prompt_rate [none, some 2] = prompt_rate [some 2] ∧
    prompt_positive_number [some (-1), some 2] = prompt_positive_number [some 2] :=
  claim_C8_amended [some 2] (-1) (by norm_num)

/-- C9: a fractional tenor is truncated to its integer part before it
shifts the effective date: for every positive tenor t and every unit, the
maturity date equals the one computed from the integer int(t). -/
theorem claim_C9_truncation (d : Date) (t : ℚ) (u : String) (ht : 0 < t) :
    maturity_date d t u = maturity_date d ((pyInt t : ℤ) : ℚ) u := by
  unfold maturity_date
  rw [pyInt_intCast, pyFloor_intCast, pyFloor_eq_pyInt ht.le]

/-- C9 witness: the truncation statement at 2024-01-01 with tenor 5 years. -/
theorem claim_C9_truncation_witness :
    maturity_date ⟨2024, 1, 1⟩ 5 "years" =
      maturity_date ⟨2024, 1, 1⟩ ((pyInt 5 : ℤ) : ℚ) "years" :=
  claim_C9_truncation ⟨2024, 1, 1⟩ 5 "years" (by norm_num)

/-- C10: for any tenor unit other than days, months and years,
`calculate_investment` returns the identity result without failing:
maturity value = principal, withholding tax = 0, amount due = principal,
and maturity date = effective date. -/
theorem claim_C10_unknown_unit (p t r : ℚ) (d : Date) (u : String)
    (h1 : u ≠ "years") (h2 : u ≠ "months") (h3 : u ≠ "days") :
    calculate_investment p t u r d = some (p, 0, p, d) := by
  have htu : tenor_in_years t u = 0 := by
    unfold tenor_in_years
    rw [if_neg h1, if_neg h2, if_neg h3]
  have hmd : maturity_date d t u = some d := by
    unfold maturity_date
    rw [if_neg h1, if_neg h2, if_neg h3]
  have hmv : maturity_value p r t u = p := by
    unfold maturity_value
    rw [htu]
    ring
  have hwt : withholding_tax p r t u = 0 := by
    unfold withholding_tax interest_generated
    rw [hmv]
    ring
  have had : amount_due p r t u = p := by
    unfold amount_due
    rw [hmv, hwt]
    ring
  unfold calculate_investment
  rw [hmd, Option.map_some', hmv, hwt, had]

/-- C10 witness: the identity result at the unit "weeks". -/
theorem claim_C10_unknown_unit_witness :
    calculate_investment 100 5 "weeks" (1 / 10) ⟨2024, 1, 1⟩ =
      some (100, 0, 100, ⟨2024, 1, 1⟩) :=
  claim_C10_unknown_unit 100 5 (1 / 10) ⟨2024, 1, 1⟩ "weeks"
    (by decide) (by decide) (by decide)

end PrincipalCalc
